import Mathlib

/-!
# bb-browser: verification of the command executor, ref table, snapshot
# reducer, SSE transport client and trace recorder

Shallow embedding of the core of the bb-browser extension
(packages/extension/src), translated from the TypeScript source:

* command-handler.ts  — command dispatch (handleCommand) and the per-action
  handlers (restricted-page policy, parameter validation);
* cdp-dom-service.ts  — ref resolution (getRefInfo) and the element
  operations (clickElement, fillElement, checkElement, ...), plus the
  SSEClient stream decoder and its reconnection policy;
* dom-service.ts      — the snapshot reducer (convertToAccessibilityTree,
  getRole, getAccessibleName, collectTextContent, isAncestor);
* content/trace.ts and the background trace service — trace recording.

JavaScript strings are modelled as Lean Strings; JS truthiness on a string
is emptiness testing; JS exceptions are the Except monad; external browser
surfaces (CDP, chrome.tabs, the live DOM) are oracle parameters.
-/

namespace BB

/-- JS truthiness for an optional string attribute / parameter:
a value is "present" when it exists and is non-empty. -/
def truthyOpt (o : Option String) : Option String :=
  match o with
  | some v => if v = "" then none else some v
  | none => none

/-! ### Character-level string primitives

The JS string operations used by the source (startsWith, slice, trim,
toLowerCase, split) are modelled at the character-list level so that all
definitions evaluate by kernel reduction. -/

/-- Is the first list a prefix of the second? -/
def charsPrefix : List Char → List Char → Bool
  | [], _ => true
  | _ :: _, [] => false
  | p :: ps, c :: cs => p = c && charsPrefix ps cs

/-- JS s.startsWith(p). -/
def jsStartsWith (s p : String) : Bool := charsPrefix p.data s.data

/-- JS s.slice(n) / s.substring(n): drop the first n characters. -/
def jsDrop (s : String) (n : Nat) : String := String.mk (s.data.drop n)

/-- JS s.slice(0, n): keep the first n characters. -/
def jsTake (s : String) (n : Nat) : String := String.mk (s.data.take n)

/-- Whitespace characters relevant to the inputs modelled here. -/
def isWsChar (c : Char) : Bool := c = ' ' || c = '\t' || c = '\n' || c = '\r'

/-- JS s.trim(). -/
def jsTrim (s : String) : String :=
  String.mk (((s.data.dropWhile isWsChar).reverse.dropWhile isWsChar).reverse)

/-- JS s.toLowerCase() (ASCII). -/
def jsToLower (s : String) : String := String.mk (s.data.map Char.toLower)

/-- JS s.length. -/
def jsLength (s : String) : Nat := s.data.length

/-! ## Command executor dispatch (command-handler.ts, handleCommand) -/

/-- A decoded command (CommandEvent): correlation id, action, and the
action-specific fields used by the handlers modelled here. -/
structure CommandM where
  id : String
  action : String
  ref : Option String := none
  key : Option String := none
  script : Option String := none
  deriving Repr, DecidableEq

/-- A Result (CommandResult): id matching the command, success flag, and
an error message on failure. The action-specific data payload is not
needed by the claims and is abstracted away. -/
structure ResultM where
  id : String
  success : Bool
  error : Option String := none
  deriving Repr, DecidableEq

/-- The body of a Result as produced by an individual handler: every
handler in command-handler.ts builds its Result with id := command.id on
every return path, so the id plumbing is factored out here. -/
structure HandlerBody where
  success : Bool
  error : Option String := none
  deriving Repr, DecidableEq

/-- The case labels of the switch in handleCommand, in source order. -/
def recognizedActions : List String :=
  ["open", "snapshot", "click", "hover", "fill", "type", "check",
   "uncheck", "close", "get", "screenshot", "wait", "press", "scroll",
   "back", "forward", "refresh", "eval", "select", "frame", "frame_main"]

/-- handleCommand (command-handler.ts): route on action; the default case
produces the Unknown action failure; the surrounding try/catch turns any
exception thrown by the matched handler into a failure Result.  The
execution of the matched handler is abstracted as run : action name to
either a result body or a thrown error message. -/
def handleCommand (run : String → Except String HandlerBody)
    (cmd : CommandM) : ResultM :=
  let dispatched : Except String HandlerBody :=
    if cmd.action ∈ recognizedActions then
      run cmd.action
    else
      .ok { success := false, error := some ("Unknown action: " ++ cmd.action) }
  match dispatched with
  | .ok body => { id := cmd.id, success := body.success, error := body.error }
  | .error e => { id := cmd.id, success := false, error := some e }

/-! ## Ref table and element operations (cdp-dom-service.ts) -/

/-- RefInfo: the stored locator (xpath), accessibility role, optional
computed name and tag of an element indexed by a snapshot. -/
structure RefInfo where
  xpath : String
  role : String
  name : Option String := none
  tagName : String := ""
  deriving Repr, DecidableEq

/-- The ref table: ref id (the stringified highlight index) to RefInfo.
Modelled as an association list in insertion order. -/
abbrev RefTable := List (String × RefInfo)

/-- Key lookup in a ref table (JS object indexing). -/
def lookupRef (t : RefTable) (k : String) : Option RefInfo :=
  match t with
  | [] => none
  | p :: rest => if p.1 = k then some p.2 else lookupRef rest k

/-- Strip an optional leading '@' from a ref argument (getRefInfo). -/
def stripAt (ref : String) : String :=
  if jsStartsWith ref "@" then jsDrop ref 1 else ref

/-- The ref state of cdp-dom-service: the in-memory cache lastSnapshotRefs
and the chrome.storage.session copy (none when nothing was ever saved). -/
structure RefsState where
  mem : RefTable
  storage : Option RefTable
  deriving Repr

/-- loadRefsFromStorage: replace the memory cache with the stored table
when one exists. -/
def loadRefs (st : RefsState) : RefsState :=
  match st.storage with
  | some t => { st with mem := t }
  | none => st

/-- getRefInfo (cdp-dom-service.ts): strip '@'; consult the memory cache;
on a miss with an empty cache, reload from storage and look up again. -/
def getRefInfo (st : RefsState) (ref : String) : Option RefInfo :=
  let refId := stripAt ref
  match lookupRef st.mem refId with
  | some info => some info
  | none =>
    let st' := if st.mem.isEmpty then loadRefs st else st
    lookupRef st'.mem refId

/-- The error thrown by every element operation when the ref does not
resolve. -/
def refNotFoundMsg (ref : String) : String :=
  "Ref \"" ++ ref ++ "\" not found. Run snapshot first to get available refs."

/-- One call into the CDP / live-page layer, recorded so that theorems can
state that an operation performed no page action. -/
inductive PageCall where
  | evalCenter (xpath : String)
  | click (x y : Int)
  | moveMouse (x y : Int)
  | focusAndClear (xpath : String)
  | focusElement (xpath : String)
  | insertText (t : String)
  | pressKey (c : Char)
  | evalTextContent (xpath : String)
  | evalCheck (xpath : String)
  | evalUncheck (xpath : String)
  | evalSelect (xpath : String) (v : String)
  | evalExists (xpath : String)
  deriving Repr, DecidableEq

/-- Oracle for the external CDP surface: what each page interaction of
cdp-dom-service.ts returns (or throws). existsJs takes the polling
countdown so successive polls may observe a changing document. -/
structure Cdp where
  centerOf : String → Except String (Int × Int)
  clickAt : Int → Int → Except String Unit
  mouseTo : Int → Int → Except String Unit
  focusClear : String → Except String Unit
  focusOnly : String → Except String Unit
  insert : String → Except String Unit
  key : Char → Except String Unit
  textOf : String → Except String String
  checkJs : String → Except String Bool
  uncheckJs : String → Except String Bool
  selectJs : String → String → Except String (String × String)
  existsJs : Nat → String → Except String Bool

/-- clickElement: resolve the ref, find the element center by xpath
(scrolling it into view), then dispatch a CDP click. -/
def clickElement (cdp : Cdp) (st : RefsState) (ref : String) :
    Except String (String × Option String) × List PageCall :=
  match getRefInfo st ref with
  | none => (.error (refNotFoundMsg ref), [])
  | some info =>
    match cdp.centerOf info.xpath with
    | .error e => (.error e, [.evalCenter info.xpath])
    | .ok (x, y) =>
      match cdp.clickAt x y with
      | .error e => (.error e, [.evalCenter info.xpath, .click x y])
      | .ok _ => (.ok (info.role, info.name),
                  [.evalCenter info.xpath, .click x y])

/-- hoverElement: resolve the ref, find the element center, move the
mouse there. -/
def hoverElement (cdp : Cdp) (st : RefsState) (ref : String) :
    Except String (String × Option String) × List PageCall :=
  match getRefInfo st ref with
  | none => (.error (refNotFoundMsg ref), [])
  | some info =>
    match cdp.centerOf info.xpath with
    | .error e => (.error e, [.evalCenter info.xpath])
    | .ok (x, y) =>
      match cdp.mouseTo x y with
      | .error e => (.error e, [.evalCenter info.xpath, .moveMouse x y])
      | .ok _ => (.ok (info.role, info.name),
                  [.evalCenter info.xpath, .moveMouse x y])

/-- fillElement: resolve the ref, focus and clear the element, then
insert the text through CDP. -/
def fillElement (cdp : Cdp) (st : RefsState) (ref : String) (text : String) :
    Except String (String × Option String) × List PageCall :=
  match getRefInfo st ref with
  | none => (.error (refNotFoundMsg ref), [])
  | some info =>
    match cdp.focusClear info.xpath with
    | .error e => (.error e, [.focusAndClear info.xpath])
    | .ok _ =>
      match cdp.insert text with
      | .error e => (.error e, [.focusAndClear info.xpath, .insertText text])
      | .ok _ => (.ok (info.role, info.name),
                  [.focusAndClear info.xpath, .insertText text])

/-- The per-character key loop of typeElement, short-circuiting on the
first CDP error. -/
def typeChars (cdp : Cdp) : List Char → Except String Unit × List PageCall
  | [] => (.ok (), [])
  | c :: cs =>
    match cdp.key c with
    | .error e => (.error e, [.pressKey c])
    | .ok _ =>
      let r := typeChars cdp cs
      (r.1, .pressKey c :: r.2)

/-- typeElement: resolve the ref, focus the element (without clearing),
then press each character of the text in order. -/
def typeElement (cdp : Cdp) (st : RefsState) (ref : String) (text : String) :
    Except String (String × Option String) × List PageCall :=
  match getRefInfo st ref with
  | none => (.error (refNotFoundMsg ref), [])
  | some info =>
    match cdp.focusOnly info.xpath with
    | .error e => (.error e, [.focusElement info.xpath])
    | .ok _ =>
      let r := typeChars cdp text.toList
      match r.1 with
      | .error e => (.error e, .focusElement info.xpath :: r.2)
      | .ok _ => (.ok (info.role, info.name), .focusElement info.xpath :: r.2)

/-- getElementText: resolve the ref, evaluate the element's trimmed
textContent in the page. -/
def getElementText (cdp : Cdp) (st : RefsState) (ref : String) :
    Except String String × List PageCall :=
  match getRefInfo st ref with
  | none => (.error (refNotFoundMsg ref), [])
  | some info =>
    match cdp.textOf info.xpath with
    | .error e => (.error e, [.evalTextContent info.xpath])
    | .ok t => (.ok t, [.evalTextContent info.xpath])

/-- checkElement: resolve the ref, run the check script in the page; its
boolean return is reported as wasAlreadyChecked. -/
def checkElement (cdp : Cdp) (st : RefsState) (ref : String) :
    Except String (String × Option String × Bool) × List PageCall :=
  match getRefInfo st ref with
  | none => (.error (refNotFoundMsg ref), [])
  | some info =>
    match cdp.checkJs info.xpath with
    | .error e => (.error e, [.evalCheck info.xpath])
    | .ok was => (.ok (info.role, info.name, was), [.evalCheck info.xpath])

/-- uncheckElement: resolve the ref, run the uncheck script; its boolean
return is reported as wasAlreadyUnchecked. -/
def uncheckElement (cdp : Cdp) (st : RefsState) (ref : String) :
    Except String (String × Option String × Bool) × List PageCall :=
  match getRefInfo st ref with
  | none => (.error (refNotFoundMsg ref), [])
  | some info =>
    match cdp.uncheckJs info.xpath with
    | .error e => (.error e, [.evalUncheck info.xpath])
    | .ok was => (.ok (info.role, info.name, was), [.evalUncheck info.xpath])

/-- selectOption: resolve the ref, run the select script which matches an
option by value or label and returns (selectedValue, selectedLabel). -/
def selectOption (cdp : Cdp) (st : RefsState) (ref : String) (value : String) :
    Except String (String × Option String × String × String) × List PageCall :=
  match getRefInfo st ref with
  | none => (.error (refNotFoundMsg ref), [])
  | some info =>
    match cdp.selectJs info.xpath value with
    | .error e => (.error e, [.evalSelect info.xpath value])
    | .ok (v, l) => (.ok (info.role, info.name, v, l),
                     [.evalSelect info.xpath value])

/-- The polling loop of waitForElement: up to 50 probes (maxWait 10000 ms
at a 200 ms interval), throwing the timeout error when exhausted. -/
def waitPoll (ex : Nat → String → Except String Bool) (xpath ref : String) :
    Nat → Except String Unit × List PageCall
  | 0 => (.error ("Timeout waiting for element @" ++ ref ++ " after 10000ms"), [])
  | Nat.succ k =>
    match ex (Nat.succ k) xpath with
    | .error e => (.error e, [.evalExists xpath])
    | .ok true => (.ok (), [.evalExists xpath])
    | .ok false =>
      let r := waitPoll ex xpath ref k
      (r.1, .evalExists xpath :: r.2)

/-- waitForElement: resolve the ref, then poll for the locator to match a
live element. -/
def waitForElement (cdp : Cdp) (st : RefsState) (ref : String) :
    Except String Unit × List PageCall :=
  match getRefInfo st ref with
  | none => (.error (refNotFoundMsg ref), [])
  | some info => waitPoll cdp.existsJs info.xpath ref 50

/-! ## Snapshot reducer (dom-service.ts) -/

/-- A raw element node of the buildDomTree node map. -/
structure RawElem where
  tagName : String
  xpath : Option String := none
  attributes : List (String × String) := []
  children : List String := []
  isVisible : Option Bool := none
  highlightIndex : Option Nat := none
  deriving Repr, DecidableEq

/-- A raw node: a text node or an element node. -/
inductive RawNode where
  | textNode (text : String) (isVisible : Bool)
  | elem (e : RawElem)
  deriving Repr, DecidableEq

/-- The raw node map, as an association list in Object.entries order. -/
abbrev NodeMap := List (String × RawNode)

/-- JS object indexing into the node map. -/
def lookupNode (m : NodeMap) (k : String) : Option RawNode :=
  match m with
  | [] => none
  | p :: rest => if p.1 = k then some p.2 else lookupNode rest k

/-- Attribute lookup on a raw element. -/
def getAttrRaw (e : RawElem) (k : String) : Option String :=
  match e.attributes.find? (fun p => p.1 = k) with
  | some p => some p.2
  | none => none

/-- Truthy attribute access (attrs.x with JS truthiness). -/
def truthyAttr (e : RawElem) (k : String) : Option String :=
  truthyOpt (getAttrRaw e k)

/-- getInputRole: disambiguate an input element by its type attribute
(lowercased, defaulting to text), falling back to textbox. -/
def getInputRole (e : RawElem) : String :=
  let t := match truthyAttr e "type" with
           | some v => jsToLower v
           | none => "text"
  match t with
  | "text" => "textbox"
  | "password" => "textbox"
  | "email" => "textbox"
  | "url" => "textbox"
  | "tel" => "textbox"
  | "search" => "searchbox"
  | "number" => "spinbutton"
  | "range" => "slider"
  | "checkbox" => "checkbox"
  | "radio" => "radio"
  | "button" => "button"
  | "submit" => "button"
  | "reset" => "button"
  | "file" => "button"
  | _ => "textbox"

/-- getRole: an explicit role attribute wins; otherwise the fixed
tag-to-role table, defaulting to the lowercased tag itself. -/
def getRole (e : RawElem) : String :=
  let tagName := jsToLower e.tagName
  match truthyAttr e "role" with
  | some r => r
  | none =>
    match tagName with
    | "a" => "link"
    | "button" => "button"
    | "input" => getInputRole e
    | "select" => "combobox"
    | "textarea" => "textbox"
    | "img" => "image"
    | "nav" => "navigation"
    | "main" => "main"
    | "header" => "banner"
    | "footer" => "contentinfo"
    | "aside" => "complementary"
    | "form" => "form"
    | "table" => "table"
    | "ul" => "list"
    | "ol" => "list"
    | "li" => "listitem"
    | "h1" => "heading"
    | "h2" => "heading"
    | "h3" => "heading"
    | "h4" => "heading"
    | "h5" => "heading"
    | "h6" => "heading"
    | "dialog" => "dialog"
    | "article" => "article"
    | "section" => "region"
    | "label" => "label"
    | "details" => "group"
    | "summary" => "button"
    | _ => tagName

/-- The inner collect of collectTextContent: fuel is the remaining depth
allowance (the source starts children at depth 0 and prunes at
depth > 5, so the top-level calls carry fuel 6). -/
def collectFrom (m : NodeMap) : Nat → String → List String
  | 0, _ => []
  | Nat.succ fuel, nodeId =>
    match lookupNode m nodeId with
    | none => []
    | some (.textNode t _) =>
      let s := jsTrim t
      if s = "" then [] else [s]
    | some (.elem e) => (e.children.map (collectFrom m fuel)).flatten

/-- JS Array.join with a separator. -/
def joinSep (sep : String) : List String → String
  | [] => ""
  | [s] => s
  | s :: rest => s ++ sep ++ joinSep sep rest

/-- collectTextContent: the space-joined trimmed texts of descendant text
nodes, with recursion depth capped at 5. -/
def collectTextContent (m : NodeMap) (e : RawElem) : String :=
  jsTrim (joinSep " " ((e.children.map (collectFrom m 6)).flatten))

/-- getAccessibleName: the fixed priority chain
aria-label, title, placeholder, alt, value, descendant text, name. -/
def getAccessibleName (m : NodeMap) (e : RawElem) : Option String :=
  match truthyAttr e "aria-label" with
  | some v => some v
  | none =>
  match truthyAttr e "title" with
  | some v => some v
  | none =>
  match truthyAttr e "placeholder" with
  | some v => some v
  | none =>
  match truthyAttr e "alt" with
  | some v => some v
  | none =>
  match truthyAttr e "value" with
  | some v => some v
  | none =>
    let t := collectTextContent m e
    if t ≠ "" then some t
    else
      match truthyAttr e "name" with
      | some v => some v
      | none => none

/-- truncateText: cap at maxLength characters, replacing the tail by an
ellipsis. -/
def truncateText (text : String) (maxLength : Nat) : String :=
  if jsLength text ≤ maxLength then text
  else jsTake text (maxLength - 3) ++ "..."

/-- isAncestor: structural ancestry judged by xpath prefixing. -/
def isAncestor (m : NodeMap) (ancestorId descendantId : String) : Bool :=
  match lookupNode m descendantId with
  | some (.elem d) =>
    match lookupNode m ancestorId with
    | some (.elem a) =>
      match a.xpath, d.xpath with
      | some ax, some dx => jsStartsWith dx (ax ++ "/")
      | _, _ => false
    | _ => false
  | _ => false

/-- Snapshot result: the rendered text and the ref table. -/
structure SnapshotResult where
  snapshot : String
  refs : RefTable
  deriving Repr, DecidableEq

/-- The nodes of the map that carry a highlight (interactive) index, in
map order. -/
def interactiveNodesOf (m : NodeMap) : List (String × RawElem) :=
  m.filterMap (fun p =>
    match p.2 with
    | .elem e => if e.highlightIndex.isSome then some (p.1, e) else none
    | .textNode _ _ => none)

/-- The highlight index of an interactive node (present by construction;
0 is the source's ?? fallback). -/
def hIndex (e : RawElem) : Nat := e.highlightIndex.getD 0

/-- Stable insertion step for the highlight-index sort. -/
def insertByHighlight (x : String × RawElem) :
    List (String × RawElem) → List (String × RawElem)
  | [] => [x]
  | y :: ys =>
    if hIndex x.2 ≤ hIndex y.2 then x :: y :: ys
    else y :: insertByHighlight x ys

/-- Stable sort of the interactive nodes by highlight index. -/
def sortByHighlight : List (String × RawElem) → List (String × RawElem)
  | [] => []
  | x :: xs => insertByHighlight x (sortByHighlight xs)

/-- Container tags treated as non-semantic by the redundancy filter. -/
def nonSemanticTags : List String :=
  ["span", "div", "i", "b", "em", "strong", "small", "svg", "path", "g"]

/-- The four-stage redundancy filter of convertToAccessibilityTree,
evaluated in source order for one candidate node against the full
interactive list:
rule 1 drops nameless non-semantic containers (and nameless anchors);
rule 2 drops label elements; rule 3 drops non-semantic descendants of an
interactive anchor/button; rule 4 drops nodes whose name duplicates an
ancestor's name. -/
def passesFilter (m : NodeMap) (all : List (String × RawElem))
    (item : String × RawElem) : Bool :=
  let name := getAccessibleName m item.2
  let tagName := jsToLower item.2.tagName
  if (nonSemanticTags.contains tagName || tagName = "a") && name.isNone then
    false
  else if tagName = "label" then
    false
  else if all.any (fun other =>
      other.1 ≠ item.1 &&
      (jsToLower other.2.tagName = "a" || jsToLower other.2.tagName = "button") &&
      nonSemanticTags.contains tagName &&
      isAncestor m other.1 item.1) then
    false
  else if all.any (fun other =>
      other.1 ≠ item.1 &&
      isAncestor m other.1 item.1 &&
      name.isSome && (getAccessibleName m other.2).isSome &&
      name = getAccessibleName m other.2) then
    false
  else
    true

/-- Emission of one surviving node: its snapshot line and ref entry. -/
def emitNode (m : NodeMap) (item : String × RawElem) :
    String × (String × RefInfo) :=
  let refId := toString (hIndex item.2)
  let name := getAccessibleName m item.2
  let role := getRole item.2
  let line := "- " ++ role ++
    (match name with
     | some n => " \"" ++ truncateText n 50 ++ "\""
     | none => "") ++
    " [ref=" ++ refId ++ "]"
  (line,
   (refId,
    { xpath := item.2.xpath.getD "", role := role,
      name := name.map (fun n => truncateText n 100),
      tagName := item.2.tagName }))

/-- convertToAccessibilityTree (interactive-mode snapshot): collect the
interactive nodes, sort by highlight index, apply the four-stage filter,
and emit one line plus one ref entry per surviving node. -/
def convertToAccessibilityTree (m : NodeMap) : SnapshotResult :=
  let interactive := sortByHighlight (interactiveNodesOf m)
  let filtered := interactive.filter (passesFilter m interactive)
  let emitted := filtered.map (emitNode m)
  { snapshot := joinSep "\n" (emitted.map Prod.fst),
    refs := emitted.map Prod.snd }

/-- First present value of an option chain (the specification's fixed
priority order, stated independently of the source's control flow). -/
def firstPresent : List (Option String) → Option String
  | [] => none
  | some v :: _ => some v
  | none :: rest => firstPresent rest

/-- The concrete raw node map for a document whose body contains
the anchor-with-span fragment: both the anchor and its span child carry
interactive indices, and the span wraps the text Click. -/
def anchorSpanMap : NodeMap :=
  [("0", .elem { tagName := "body", xpath := some "/html/body",
                 children := ["1"] }),
   ("1", .elem { tagName := "a", xpath := some "/html/body/a[1]",
                 attributes := [("href", "#")], children := ["2"],
                 highlightIndex := some 0 }),
   ("2", .elem { tagName := "span", xpath := some "/html/body/a[1]/span[1]",
                 children := ["3"], highlightIndex := some 1 }),
   ("3", .textNode "Click" true)]

/-! ## Per-action handlers and the restricted-page policy
(command-handler.ts, handleSnapshot / handleClick / handlePress /
handleEval) -/

/-- A browser tab as seen through chrome.tabs.query: its url and title
(both already defaulted to "" by the source's || fallbacks). -/
structure Tab where
  url : String
  title : String
  deriving Repr, DecidableEq

/-- The browser-internal scheme test applied by handleSnapshot,
handlePress and handleEval. -/
def isRestricted (url : String) : Bool :=
  jsStartsWith url "chrome://" || jsStartsWith url "about:" ||
    jsStartsWith url "chrome-extension://"

/-- A page-touching call made by a handler, recorded so that theorems can
state whether the handler attempted its operation. -/
inductive HandlerOp where
  | snapshotOp
  | clickOp (ref : String)
  | pressScript
  | evalScript
  deriving Repr, DecidableEq

/-- Environment of the handlers: the active tab (none when
chrome.tabs.query finds none) and the outcome of each downstream
operation. -/
structure HandlerCtx where
  activeTab : Option Tab
  getSnapshotR : Except String Unit
  clickElementR : String → Except String (String × Option String)
  execPress : Except String Unit
  execEval : Except String Unit

/-- handleSnapshot: require an active tab, reject restricted pages before
touching the page, then take the snapshot, wrapping failures. -/
def handleSnapshot (ctx : HandlerCtx) (cmd : CommandM) :
    ResultM × List HandlerOp :=
  match ctx.activeTab with
  | none => ({ id := cmd.id, success := false,
               error := some "No active tab found" }, [])
  | some tab =>
    if isRestricted tab.url then
      ({ id := cmd.id, success := false,
         error := some ("Cannot take snapshot of restricted page: " ++ tab.url) },
       [])
    else
      match ctx.getSnapshotR with
      | .ok _ => ({ id := cmd.id, success := true }, [.snapshotOp])
      | .error e => ({ id := cmd.id, success := false,
                       error := some ("Snapshot failed: " ++ e) }, [.snapshotOp])

/-- handleClick: require the ref parameter and an active tab, then call
clickElement directly — the source performs no restricted-page check on
this path. -/
def handleClick (ctx : HandlerCtx) (cmd : CommandM) :
    ResultM × List HandlerOp :=
  match truthyOpt cmd.ref with
  | none => ({ id := cmd.id, success := false,
               error := some "Missing ref parameter" }, [])
  | some ref =>
    match ctx.activeTab with
    | none => ({ id := cmd.id, success := false,
                 error := some "No active tab found" }, [])
    | some _tab =>
      match ctx.clickElementR ref with
      | .ok _ => ({ id := cmd.id, success := true }, [.clickOp ref])
      | .error e => ({ id := cmd.id, success := false,
                       error := some ("Click failed: " ++ e) }, [.clickOp ref])

/-- handlePress: require the key parameter and an active tab, reject
restricted pages, then dispatch the key events in the page. -/
def handlePress (ctx : HandlerCtx) (cmd : CommandM) :
    ResultM × List HandlerOp :=
  match truthyOpt cmd.key with
  | none => ({ id := cmd.id, success := false,
               error := some "Missing key parameter" }, [])
  | some _k =>
    match ctx.activeTab with
    | none => ({ id := cmd.id, success := false,
                 error := some "No active tab found" }, [])
    | some tab =>
      if isRestricted tab.url then
        ({ id := cmd.id, success := false,
           error := some ("Cannot send keys to restricted page: " ++ tab.url) },
         [])
      else
        match ctx.execPress with
        | .ok _ => ({ id := cmd.id, success := true }, [.pressScript])
        | .error e => ({ id := cmd.id, success := false,
                         error := some ("Press failed: " ++ e) }, [.pressScript])

/-- handleEval: require the script parameter and an active tab, reject
restricted pages, then execute the script in the page. -/
def handleEval (ctx : HandlerCtx) (cmd : CommandM) :
    ResultM × List HandlerOp :=
  match truthyOpt cmd.script with
  | none => ({ id := cmd.id, success := false,
               error := some "Missing script parameter" }, [])
  | some _s =>
    match ctx.activeTab with
    | none => ({ id := cmd.id, success := false,
                 error := some "No active tab found" }, [])
    | some tab =>
      if isRestricted tab.url then
        ({ id := cmd.id, success := false,
           error := some ("Cannot execute script on restricted page: " ++ tab.url) },
         [])
      else
        match ctx.execEval with
        | .ok _ => ({ id := cmd.id, success := true }, [.evalScript])
        | .error e => ({ id := cmd.id, success := false,
                         error := some ("Eval failed: " ++ e) }, [.evalScript])

/-! ## SSE stream decoder (cdp-dom-service.ts, SSEClient.readStream) -/

/-- Split a character stream into the complete (newline-terminated) lines
and the trailing partial line — buffer.split(newline) followed by
buffer = lines.pop(). -/
def splitLines : List Char → List (List Char) × List Char
  | [] => ([], [])
  | c :: cs =>
    let r := splitLines cs
    if c = '\n' then ([] :: r.1, r.2)
    else
      match r.1 with
      | [] => ([], c :: r.2)
      | l :: ls => ((c :: l) :: ls, r.2)

/-- The event/data fields the line loop of readStream accumulates. -/
structure SseFields where
  event : String
  data : String
  deriving Repr, DecidableEq

/-- Processing of one complete line: an event: line sets the event field,
a data: line sets the data field, a blank line dispatches (event, data)
when both are non-empty and resets them; anything else is ignored. -/
def processLine (s : SseFields) (line : List Char) :
    SseFields × Option (String × String) :=
  let t := jsTrim (String.mk line)
  if jsStartsWith t "event:" then
    ({ s with event := jsTrim (jsDrop t 6) }, none)
  else if jsStartsWith t "data:" then
    ({ s with data := jsTrim (jsDrop t 5) }, none)
  else if t = "" then
    if s.event != "" && s.data != "" then
      ({ event := "", data := "" }, some (s.event, s.data))
    else (s, none)
  else (s, none)

/-- The line loop: process complete lines in order, collecting dispatched
records. -/
def processLines (s : SseFields) :
    List (List Char) → SseFields × List (String × String)
  | [] => (s, [])
  | l :: ls =>
    let r1 := processLine s l
    let r2 := processLines r1.1 ls
    (r2.1, r1.2.toList ++ r2.2)

/-- The decoder state across reads: the partial-line buffer plus the
event/data fields. -/
structure SseDecoder where
  buffer : List Char
  fields : SseFields
  deriving Repr, DecidableEq

/-- One reader.read() iteration of readStream: append the chunk to the
buffer, split off the complete lines (keeping the trailing partial line
as the new buffer) and run the line loop on them. -/
def processChunk (s : SseDecoder) (chunk : String) :
    SseDecoder × List (String × String) :=
  let sp := splitLines (s.buffer ++ chunk.data)
  let r := processLines s.fields sp.1
  ({ buffer := sp.2, fields := r.1 }, r.2)

/-- A whole run of the read loop over a partition of the input into
chunks. -/
def processChunks (s : SseDecoder) :
    List String → SseDecoder × List (String × String)
  | [] => (s, [])
  | c :: cs =>
    let r1 := processChunk s c
    let r2 := processChunks r1.1 cs
    (r2.1, r1.2 ++ r2.2)

/-- Concatenation of a chunk partition back into the full input. -/
def joinChunks (cs : List String) : String := cs.foldr (· ++ ·) ""

/-! ## SSE reconnection policy (cdp-dom-service.ts, SSEClient) -/

def SSE_RECONNECT_DELAY : Nat := 3000

def SSE_MAX_RECONNECT_ATTEMPTS : Nat := 5

/-- Connection state of the SSEClient: the isConnectedFlag and the
consecutive reconnection attempt counter. -/
structure SseConn where
  connected : Bool
  reconnectAttempts : Nat
  deriving Repr, DecidableEq

/-- SSEClient.reconnect: give up (schedule nothing) once the attempt cap
is reached, otherwise bump the counter and schedule a retry after
SSE_RECONNECT_DELAY * 2 ^ (attempts - 1) milliseconds. Returns the new
state and the scheduled delay, if any. -/
def reconnect (s : SseConn) : SseConn × Option Nat :=
  if s.reconnectAttempts ≥ SSE_MAX_RECONNECT_ATTEMPTS then
    (s, none)
  else
    let attempts := s.reconnectAttempts + 1
    ({ s with reconnectAttempts := attempts },
     some (SSE_RECONNECT_DELAY * 2 ^ (attempts - 1)))

/-- SSEClient.connect on a successful response: mark connected and reset
the attempt counter to zero. -/
def connectOk (_s : SseConn) : SseConn :=
  { connected := true, reconnectAttempts := 0 }

/-- Stream termination / transport error path of SSEClient.readStream:
clear the connected flag, then call reconnect. -/
def streamEndStep (s : SseConn) : SseConn × Option Nat :=
  reconnect { s with connected := false }

/-- The keepalive alarm listener (background/index.ts): on each ~24s tick
it calls connect exactly when the client believes it is disconnected. -/
def keepaliveTriggersConnect (s : SseConn) : Bool :=
  !s.connected

/-- A run of k consecutive stream failures, collecting the scheduled
reconnection delay (or none) of each. -/
def consecutiveFailures : SseConn → Nat → SseConn × List (Option Nat)
  | s, 0 => (s, [])
  | s, Nat.succ k =>
    let p := streamEndStep s
    let q := consecutiveFailures p.1 k
    (q.1, p.2 :: q.2)

/-! ## Trace recorder (background trace service + content/trace.ts) -/

/-- A TraceEvent: one semantic record of a captured user interaction. -/
structure TraceEvent where
  type : String
  timestamp : Nat
  url : String
  ref : Option Nat := none
  xpath : Option String := none
  cssSelector : Option String := none
  value : Option String := none
  key : Option String := none
  checked : Option Bool := none
  elementRole : String := ""
  elementName : String := ""
  elementTag : String := ""
  deriving Repr, DecidableEq

/-- State of the background trace service. -/
structure TraceState where
  isRecording : Bool
  recordingTabId : Option Nat
  events : List TraceEvent
  deriving Repr, DecidableEq

/-- The synthetic navigation event pushed by startRecording. -/
def navigationEvent (url title : String) (now : Nat) : TraceEvent :=
  { type := "navigation", timestamp := now, url := url,
    elementRole := "document", elementName := title,
    elementTag := "document" }

/-- startRecording: raise the recording flag, remember the tab, clear the
buffer, and push the synthetic navigation event when the tab lookup
succeeds and its url is truthy (a failed chrome.tabs.get, modelled as
none, or an empty url skips it). -/
def startRecording (tabId : Nat) (tab : Option Tab) (now : Nat)
    (_s : TraceState) : TraceState :=
  { isRecording := true, recordingTabId := some tabId,
    events :=
      match tab with
      | some t => if t.url ≠ "" then [navigationEvent t.url t.title now] else []
      | none => [] }

/-- addEvent: append to the end of the buffer while recording; otherwise
drop the event. -/
def addEvent (e : TraceEvent) (s : TraceState) : TraceState :=
  if s.isRecording then { s with events := s.events ++ [e] } else s

/-- stopRecording: return the accumulated events and reset to idle. -/
def stopRecording (s : TraceState) : List TraceEvent × TraceState :=
  (s.events, { isRecording := false, recordingTabId := none, events := [] })

/-- A whole recording session: start on a tab, capture a sequence of
events, stop, and read off the returned list. -/
def runSession (tabId : Nat) (tab : Option Tab) (t0 : Nat)
    (captured : List TraceEvent) : List TraceEvent :=
  (stopRecording (captured.foldl (fun s e => addEvent e s)
    (startRecording tabId tab t0
      { isRecording := false, recordingTabId := none, events := [] }))).1

/-- An input (or textarea) element as seen by the content script's input
handler: its type property plus the semantic info reused in the emitted
event. -/
structure InputElem where
  inputType : String
  role : String := ""
  name : String := ""
  tag : String := ""
  ref : Option Nat := none
  xpath : String := ""
  cssSelector : String := ""
  deriving Repr, DecidableEq

/-- The pending state of the input debounce (lastInputElement and
lastInputValue of content/trace.ts). -/
structure InputDebounce where
  lastElem : Option InputElem
  lastValue : String
  deriving Repr, DecidableEq

/-- handleInput on one input event inside the debounce window: cancel the
pending timer and remember the element and its current value. -/
def onInput (_st : InputDebounce) (el : InputElem) (v : String) :
    InputDebounce :=
  { lastElem := some el, lastValue := v }

/-- The debounce timer firing 500 ms after the last keystroke: emit one
fill event for the remembered element — masking the value as ******** for
a password input — and clear the pending state. -/
def onTimerFire (now : Nat) (url : String) (st : InputDebounce) :
    Option TraceEvent × InputDebounce :=
  match st.lastElem with
  | none => (none, st)
  | some el =>
    (some { type := "fill", timestamp := now, url := url,
            ref := el.ref, xpath := some el.xpath,
            cssSelector := some el.cssSelector,
            value := some (if el.inputType = "password" then "********"
                           else st.lastValue),
            elementRole := el.role, elementName := el.name,
            elementTag := el.tag },
     { lastElem := none, lastValue := "" })

/-- A burst of keystrokes on one element within the 500 ms window,
followed by the timer firing: the fill event it emits, if any. -/
def debouncedFill (now : Nat) (url : String) (el : InputElem)
    (values : List String) : Option TraceEvent :=
  (onTimerFire now url (values.foldl (fun st v => onInput st el v)
    { lastElem := none, lastValue := "" })).1

/-! ## Checkbox scripts (cdp-dom-service.ts, checkElement /
uncheckElement) -/

/-- A live checkbox/radio candidate as seen by the injected script: its
type property and checked state. -/
structure DomInput where
  inputType : String
  checked : Bool
  deriving Repr, DecidableEq

/-- The page script run by checkElement: reject anything that is not a
checkbox or radio input; write checked := true and dispatch a change
event only when not already checked; return the prior checked state
(reported as wasAlreadyChecked). Returns the updated element, the
dispatched events and the returned boolean. -/
def checkScript (el : DomInput) : Except String (DomInput × List String × Bool) :=
  if el.inputType != "checkbox" && el.inputType != "radio" then
    .error "Element is not a checkbox or radio"
  else
    let wasChecked := el.checked
    if !wasChecked then
      .ok ({ el with checked := true }, ["change"], wasChecked)
    else
      .ok (el, [], wasChecked)

/-- The page script run by uncheckElement: symmetric to checkScript; the
returned boolean (reported as wasAlreadyUnchecked) is the negation of the
prior checked state. -/
def uncheckScript (el : DomInput) : Except String (DomInput × List String × Bool) :=
  if el.inputType != "checkbox" && el.inputType != "radio" then
    .error "Element is not a checkbox or radio"
  else
    let wasUnchecked := !el.checked
    if !wasUnchecked then
      .ok ({ el with checked := false }, ["change"], wasUnchecked)
    else
      .ok (el, [], wasUnchecked)

/-! ## Theorems -/

/-- C1: handleCommand never lets a handler exception escape: for every
command it produces exactly one Result (it is a total function), that
Result carries the command's id; a thrown handler failure becomes
success := false with the thrown message; an unrecognized action becomes
success := false with error "Unknown action: <action>". -/
theorem handleCommand_boundary (run : String → Except String HandlerBody)
    (cmd : CommandM) :
    (handleCommand run cmd).id = cmd.id ∧
    (∀ e, cmd.action ∈ recognizedActions → run cmd.action = .error e →
      handleCommand run cmd = { id := cmd.id, success := false, error := some e }) ∧
    (cmd.action ∉ recognizedActions →
      handleCommand run cmd =
        { id := cmd.id, success := false,
          error := some ("Unknown action: " ++ cmd.action) }) := by
  refine ⟨?_, ?_, ?_⟩
  · unfold handleCommand
    by_cases h : cmd.action ∈ recognizedActions
    · simp only [h, if_true]
      cases run cmd.action <;> rfl
    · simp only [h, if_false]
  · intro e hmem herr
    unfold handleCommand
    simp [hmem, herr]
  · intro hmem
    unfold handleCommand
    simp [hmem]

/-- Witness for C1 at concrete inputs: an unrecognized action yields the
Unknown action failure, and a throwing handler yields its message. -/
theorem handleCommand_boundary_witness :
    handleCommand (fun _ => .error "boom") { id := "c9", action := "frobnicate" } =
      { id := "c9", success := false, error := some "Unknown action: frobnicate" } ∧
    handleCommand (fun _ => .error "boom") { id := "c3", action := "click" } =
      { id := "c3", success := false, error := some "boom" } :=
  ⟨(handleCommand_boundary (fun _ => .error "boom")
      { id := "c9", action := "frobnicate" }).2.2 (by decide),
   (handleCommand_boundary (fun _ => .error "boom")
      { id := "c3", action := "click" }).2.1 "boom" (by decide) rfl⟩

/-- Helper: in the state left by the most recent snapshot (memory and
storage both hold its table), a ref whose stripped id is not a key of
that table does not resolve. -/
theorem getRefInfo_none_of_lookup_none (table : RefTable) (ref : String)
    (h : lookupRef table (stripAt ref) = none) :
    getRefInfo { mem := table, storage := some table } ref = none := by
  unfold getRefInfo
  by_cases he : table.isEmpty <;> simp [h, he, loadRefs]

/-- C2: every element-targeting operation fails closed: when the ref id
(after stripping an optional leading '@') is not a key of the most recent
snapshot's ref table, the operation performs no page action (its CDP call
trace is empty) and throws the ref-not-found error — it never resolves to
some other element. -/
theorem element_ops_fail_closed (cdp : Cdp) (table : RefTable) (ref : String)
    (text value : String)
    (h : lookupRef table (stripAt ref) = none) :
    clickElement cdp { mem := table, storage := some table } ref =
      (.error (refNotFoundMsg ref), []) ∧
    hoverElement cdp { mem := table, storage := some table } ref =
      (.error (refNotFoundMsg ref), []) ∧
    fillElement cdp { mem := table, storage := some table } ref text =
      (.error (refNotFoundMsg ref), []) ∧
    typeElement cdp { mem := table, storage := some table } ref text =
      (.error (refNotFoundMsg ref), []) ∧
    getElementText cdp { mem := table, storage := some table } ref =
      (.error (refNotFoundMsg ref), []) ∧
    checkElement cdp { mem := table, storage := some table } ref =
      (.error (refNotFoundMsg ref), []) ∧
    uncheckElement cdp { mem := table, storage := some table } ref =
      (.error (refNotFoundMsg ref), []) ∧
    selectOption cdp { mem := table, storage := some table } ref value =
      (.error (refNotFoundMsg ref), []) ∧
    waitForElement cdp { mem := table, storage := some table } ref =
      (.error (refNotFoundMsg ref), []) := by
  have hg := getRefInfo_none_of_lookup_none table ref h
  refine ⟨?_, ?_, ?_, ?_, ?_, ?_, ?_, ?_, ?_⟩ <;>
    simp [clickElement, hoverElement, fillElement, typeElement,
          getElementText, checkElement, uncheckElement, selectOption,
          waitForElement, hg]

/-- Witness for C2 at a concrete input: a one-entry table holding ref id
"3" and the unknown ref "@7". -/
theorem element_ops_fail_closed_witness :
    clickElement
      { centerOf := fun _ => .ok (1, 2), clickAt := fun _ _ => .ok (),
        mouseTo := fun _ _ => .ok (), focusClear := fun _ => .ok (),
        focusOnly := fun _ => .ok (), insert := fun _ => .ok (),
        key := fun _ => .ok (), textOf := fun _ => .ok "t",
        checkJs := fun _ => .ok true, uncheckJs := fun _ => .ok true,
        selectJs := fun _ _ => .ok ("v", "l"),
        existsJs := fun _ _ => .ok true }
      { mem := [("3", { xpath := "/html/body/a[1]", role := "link" })],
        storage := some [("3", { xpath := "/html/body/a[1]", role := "link" })] }
      "@7" =
      (.error (refNotFoundMsg "@7"), []) :=
  (element_ops_fail_closed _
    [("3", { xpath := "/html/body/a[1]", role := "link" })] "@7" "" ""
    (by decide)).1

/-- C4: the interactive-mode snapshot of the anchor-with-span document
emits exactly one node — the anchor, role link, name Click — producing
exactly one snapshot line and exactly one refs entry (the span is dropped
by filter rule 3 as a non-semantic descendant of an interactive anchor). -/
theorem anchor_span_single_ref :
    convertToAccessibilityTree anchorSpanMap =
      { snapshot := "- link \"Click\" [ref=0]",
        refs := [("0", { xpath := "/html/body/a[1]", role := "link",
                         name := some "Click", tagName := "a" })] } := by
  decide

/-- C5: for every element node, the computed accessible name is the first
present value in the fixed priority order aria-label, title, placeholder,
alt, value, then the (depth-capped) descendant text, then the name
attribute — and none when all are absent and the collected text is
empty. -/
theorem getAccessibleName_priority (m : NodeMap) (e : RawElem) :
    getAccessibleName m e = firstPresent
      [truthyAttr e "aria-label", truthyAttr e "title",
       truthyAttr e "placeholder", truthyAttr e "alt", truthyAttr e "value",
       (if collectTextContent m e = "" then none
        else some (collectTextContent m e)),
       truthyAttr e "name"] := by
  unfold getAccessibleName
  cases truthyAttr e "aria-label" <;>
  cases truthyAttr e "title" <;>
  cases truthyAttr e "placeholder" <;>
  cases truthyAttr e "alt" <;>
  cases truthyAttr e "value" <;>
  by_cases ht : collectTextContent m e = "" <;>
  cases truthyAttr e "name" <;>
  simp [firstPresent, ht]

/-- C3 counterexample: on a chrome:// tab, the click handler performs no
restricted-page check: with a resolvable ref it attempts the click and
even reports success, instead of rejecting the restricted page. -/
theorem handleClick_no_restricted_check :
    isRestricted "chrome://settings/" = true ∧
    handleClick
      { activeTab := some { url := "chrome://settings/", title := "Settings" },
        getSnapshotR := .ok (),
        clickElementR := fun _ => .ok ("link", some "Home"),
        execPress := .ok (), execEval := .ok () }
      { id := "cx", action := "click", ref := some "@5" } =
      ({ id := "cx", success := true, error := none }, [.clickOp "@5"]) := by
  constructor
  · decide
  · rfl

/-- C3 (amended): handleSnapshot, handlePress and handleEval reject a
browser-internal URL (chrome://, about:, chrome-extension://) before
touching the page: each returns success := false with a descriptive error
naming the restricted page, and performs no page operation. -/
theorem restricted_page_rejection (ctx : HandlerCtx) (cmd : CommandM)
    (tab : Tab) (htab : ctx.activeTab = some tab)
    (hres : isRestricted tab.url = true)
    (k s : String) (hkey : truthyOpt cmd.key = some k)
    (hscript : truthyOpt cmd.script = some s) :
    handleSnapshot ctx cmd =
      ({ id := cmd.id, success := false,
         error := some ("Cannot take snapshot of restricted page: " ++ tab.url) },
       []) ∧
    handlePress ctx cmd =
      ({ id := cmd.id, success := false,
         error := some ("Cannot send keys to restricted page: " ++ tab.url) },
       []) ∧
    handleEval ctx cmd =
      ({ id := cmd.id, success := false,
         error := some ("Cannot execute script on restricted page: " ++ tab.url) },
       []) := by
  refine ⟨?_, ?_, ?_⟩
  · unfold handleSnapshot
    rw [htab]
    simp [hres]
  · unfold handlePress
    rw [hkey, htab]
    simp [hres]
  · unfold handleEval
    rw [hscript, htab]
    simp [hres]

/-- Witness for the amended C3 at a concrete restricted tab. -/
theorem restricted_page_rejection_witness :
    handleSnapshot
      { activeTab := some { url := "about:blank", title := "" },
        getSnapshotR := .ok (),
        clickElementR := fun _ => .ok ("link", none),
        execPress := .ok (), execEval := .ok () }
      { id := "cw", action := "snapshot", key := some "Enter",
        script := some "1+1" } =
      ({ id := "cw", success := false,
         error := some "Cannot take snapshot of restricted page: about:blank" },
       []) :=
  (restricted_page_rejection
    { activeTab := some { url := "about:blank", title := "" },
      getSnapshotR := .ok (),
      clickElementR := fun _ => .ok ("link", none),
      execPress := .ok (), execEval := .ok () }
    { id := "cw", action := "snapshot", key := some "Enter",
      script := some "1+1" }
    { url := "about:blank", title := "" } rfl (by decide)
    "Enter" "1+1" rfl rfl).1

/-- Splitting a concatenation: the complete lines of u ++ v are the
complete lines of u followed by those of u's remainder prepended to v,
and the final remainder comes from the latter. -/
theorem splitLines_append (u v : List Char) :
    splitLines (u ++ v) =
      ((splitLines u).1 ++ (splitLines ((splitLines u).2 ++ v)).1,
       (splitLines ((splitLines u).2 ++ v)).2) := by
  induction u with
  | nil => simp [splitLines]
  | cons c u ih =>
    rcases h1 : splitLines u with ⟨ls₁, r₁⟩
    rcases h2 : splitLines (r₁ ++ v) with ⟨ls₂, r₂⟩
    have ihv : splitLines (u ++ v) = (ls₁ ++ ls₂, r₂) := by
      rw [ih, h1]
      simp [h2]
    by_cases hc : c = '\n'
    · subst hc
      simp [splitLines, ihv, h1, h2]
    · cases ls₁ with
      | nil =>
        cases ls₂ with
        | nil => simp [List.cons_append, splitLines, ihv, h1, h2, hc]
        | cons l ls => simp [List.cons_append, splitLines, ihv, h1, h2, hc]
      | cons l ls => simp [List.cons_append, splitLines, ihv, h1, h2, hc]

/-- The remainder produced by splitLines never contains a newline. -/
theorem splitLines_rest_no_newline (l : List Char) :
    ¬ '\n' ∈ (splitLines l).2 := by
  induction l with
  | nil => simp [splitLines]
  | cons c cs ih =>
    by_cases hc : c = '\n'
    · subst hc
      simp [splitLines, ih]
    · rcases h : splitLines cs with ⟨ls, r⟩
      rw [h] at ih
      cases ls with
      | nil =>
        simp only [splitLines, h, hc, if_false]
        intro hmem
        rcases List.mem_cons.mp hmem with he | hm
        · exact hc he.symm
        · exact ih hm
      | cons a as => simp [splitLines, h, hc, ih]

/-- A newline-free stream has no complete line: it is all remainder. -/
theorem splitLines_no_newline (l : List Char) (h : ¬ '\n' ∈ l) :
    splitLines l = ([], l) := by
  induction l with
  | nil => simp [splitLines]
  | cons c cs ih =>
    have hc : ¬ c = '\n' := fun he => h (he ▸ List.mem_cons_self c cs)
    have hcs : ¬ '\n' ∈ cs := fun hm => h (List.mem_cons_of_mem c hm)
    simp [splitLines, ih hcs, hc]

/-- The line loop distributes over list concatenation. -/
theorem processLines_append (xs ys : List (List Char)) (s : SseFields) :
    processLines s (xs ++ ys) =
      ((processLines (processLines s xs).1 ys).1,
       (processLines s xs).2 ++ (processLines (processLines s xs).1 ys).2) := by
  induction xs generalizing s with
  | nil => simp [processLines]
  | cons x xs ih =>
    simp [processLines, ih (processLine s x).1, List.append_assoc]

/-- One read of a concatenated chunk behaves exactly like two successive
reads of its halves. -/
theorem processChunk_append (s : SseDecoder) (a b : String) :
    processChunk s (a ++ b) =
      ((processChunk (processChunk s a).1 b).1,
       (processChunk s a).2 ++ (processChunk (processChunk s a).1 b).2) := by
  rcases h1 : splitLines (s.buffer ++ a.data) with ⟨ls₁, r₁⟩
  rcases h2 : splitLines (r₁ ++ b.data) with ⟨ls₂, r₂⟩
  have hsplit : splitLines (s.buffer ++ (a.data ++ b.data)) = (ls₁ ++ ls₂, r₂) := by
    rw [← List.append_assoc, splitLines_append (s.buffer ++ a.data) b.data,
        h1]
    simp [h2]
  rcases p : processLines s.fields ls₁ with ⟨f1, o1⟩
  rcases q : processLines f1 ls₂ with ⟨f2, o2⟩
  have hlines : processLines s.fields (ls₁ ++ ls₂) = (f2, o1 ++ o2) := by
    rw [processLines_append, p]
    simp [q]
  simp [processChunk, hsplit, hlines, h1, h2, p, q]

/-- Auxiliary induction for C6, generalized over any reachable decoder
state (one whose partial-line buffer holds no newline). -/
theorem processChunks_eq_joined (chunks : List String) :
    ∀ s : SseDecoder, ¬ '\n' ∈ s.buffer →
      processChunks s chunks = processChunk s (joinChunks chunks) := by
  induction chunks with
  | nil =>
    intro s hnl
    have hempty : s.buffer ++ ("" : String).data = s.buffer := by
      simp [String.data]
    simp [processChunks, processChunk, joinChunks, hempty,
          splitLines_no_newline s.buffer hnl, processLines]
  | cons c cs ih =>
    intro s hnl
    have hjoin : joinChunks (c :: cs) = c ++ joinChunks cs := rfl
    rw [hjoin, processChunk_append]
    have hnl' : ¬ '\n' ∈ (processChunk s c).1.buffer := by
      simp only [processChunk]
      exact splitLines_rest_no_newline (s.buffer ++ c.data)
    simp [processChunks, ih (processChunk s c).1 hnl']

/-- C6: the incremental SSE decoder is chunking-invariant: feeding any
partition of the byte stream chunk by chunk dispatches exactly the
records (in the same order, with the same final state) of feeding the
whole stream at once, partial lines being carried in the buffer; and a
record is dispatched exactly on a blank line when both the event and
data fields are non-empty. -/
theorem sse_decoder_chunk_invariance (s : SseDecoder)
    (hnl : ¬ '\n' ∈ s.buffer) (chunks : List String) :
    processChunks s chunks = processChunk s (joinChunks chunks) ∧
    (∀ (f : SseFields) (line : List Char),
      (processLine f line).2 =
        if jsTrim (String.mk line) = "" ∧ f.event ≠ "" ∧ f.data ≠ "" then
          some (f.event, f.data)
        else none) := by
  refine ⟨processChunks_eq_joined chunks s hnl, ?_⟩
  intro f line
  unfold processLine
  by_cases he : jsStartsWith (jsTrim (String.mk line)) "event:" = true
  · have ht : ¬ jsTrim (String.mk line) = "" := by
      intro h0
      rw [h0] at he
      exact absurd he (by decide)
    simp [he, ht]
  · by_cases hd : jsStartsWith (jsTrim (String.mk line)) "data:" = true
    · have ht : ¬ jsTrim (String.mk line) = "" := by
        intro h0
        rw [h0] at hd
        exact absurd hd (by decide)
      simp [he, hd, ht]
    · have hse : jsStartsWith "" "event:" = false := by decide
      have hsd : jsStartsWith "" "data:" = false := by decide
      by_cases ht : jsTrim (String.mk line) = ""
      · by_cases hev : f.event = ""
        · simp [he, hd, ht, hev, hse, hsd]
        · by_cases hda : f.data = ""
          · simp [he, hd, ht, hev, hda, hse, hsd]
          · simp [he, hd, ht, hev, hda, hse, hsd]
      · simp [he, hd, ht]

/-- Witness for C6: a three-chunk partition that splits both a line and a
record across reads decodes to the same single record as the whole
stream. -/
theorem sse_decoder_chunk_invariance_witness :
    processChunks { buffer := [], fields := { event := "", data := "" } }
        ["event:command\r\nda", "ta:hi\n", "\n"] =
      processChunk { buffer := [], fields := { event := "", data := "" } }
        (joinChunks ["event:command\r\nda", "ta:hi\n", "\n"]) ∧
    (processChunks { buffer := [], fields := { event := "", data := "" } }
        ["event:command\r\nda", "ta:hi\n", "\n"]).2 = [("command", "hi")] :=
  ⟨(sse_decoder_chunk_invariance
      { buffer := [], fields := { event := "", data := "" } } (by decide)
      ["event:command\r\nda", "ta:hi\n", "\n"]).1,
   by decide⟩

/-- C7: the n-th consecutive automatic reconnection attempt (1 ≤ n ≤ 5) is
scheduled after 3000 * 2^(n-1) ms; at the cap no further attempt is
scheduled, leaving the client disconnected (so only the keepalive alarm or
an explicit connect can revive it, and the alarm fires exactly when
disconnected); a successful connection resets the counter to zero.  Six
consecutive failures from a fresh connection schedule exactly the delays
3s, 6s, 12s, 24s, 48s and then nothing. -/
theorem sse_reconnect_backoff (n : Nat) (h1 : 1 ≤ n) (h2 : n ≤ 5)
    (s : SseConn) (hs : s.reconnectAttempts = n - 1) :
    reconnect s = ({ s with reconnectAttempts := n },
                   some (3000 * 2 ^ (n - 1))) ∧
    (∀ s' : SseConn, s'.reconnectAttempts = 5 → reconnect s' = (s', none)) ∧
    (∀ s' : SseConn, (connectOk s').reconnectAttempts = 0) ∧
    (∀ s' : SseConn, s'.connected = false → keepaliveTriggersConnect s' = true) ∧
    (consecutiveFailures { connected := true, reconnectAttempts := 0 } 6).2 =
      [some 3000, some 6000, some 12000, some 24000, some 48000, none] := by
  refine ⟨?_, ?_, ?_, ?_, ?_⟩
  · unfold reconnect
    rw [hs]
    have hlt : ¬ (n - 1 ≥ SSE_MAX_RECONNECT_ATTEMPTS) := by
      unfold SSE_MAX_RECONNECT_ATTEMPTS; omega
    rw [if_neg hlt]
    have heq : n - 1 + 1 = n := by omega
    rw [heq]
    rfl
  · intro s' h
    unfold reconnect
    rw [h]
    simp [SSE_MAX_RECONNECT_ATTEMPTS]
  · intro s'; rfl
  · intro s' h
    unfold keepaliveTriggersConnect
    rw [h]; rfl
  · decide

/-- Witness for C7 at n = 4: from a state with 3 consecutive failures the
next (4th) attempt is scheduled after 24 s. -/
theorem sse_reconnect_backoff_witness :
    reconnect { connected := false, reconnectAttempts := 3 } =
      ({ connected := false, reconnectAttempts := 4 }, some 24000) :=
  (sse_reconnect_backoff 4 (by decide) (by decide)
    { connected := false, reconnectAttempts := 3 } rfl).1

/-- While recording, a capture sequence is appended to the buffer in
order. -/
theorem foldl_addEvent (evs : List TraceEvent) :
    ∀ s : TraceState, s.isRecording = true →
      evs.foldl (fun s e => addEvent e s) s = { s with events := s.events ++ evs } := by
  induction evs with
  | nil => intro s _; simp
  | cons e rest ih =>
    intro s h
    have h1 : addEvent e s = { s with events := s.events ++ [e] } := by
      unfold addEvent
      rw [if_pos h]
    rw [List.foldl_cons, h1, ih { s with events := s.events ++ [e] } h]
    simp

/-- C8: a session started on an existing tab with a (non-empty) URL
returns exactly the synthetic navigation event carrying that URL and the
start time, followed by the captured events in append order; and when the
capture timestamps are non-decreasing and not earlier than the start
time (the wall clock is monotone across the session), the returned list
has monotonically non-decreasing timestamps. -/
theorem trace_session_order (tabId : Nat) (tab : Tab) (t0 : Nat)
    (captured : List TraceEvent) (hurl : tab.url ≠ "")
    (hmono : List.Chain' (fun a b => a.timestamp ≤ b.timestamp) captured)
    (hstart : ∀ e ∈ captured, t0 ≤ e.timestamp) :
    runSession tabId (some tab) t0 captured =
      navigationEvent tab.url tab.title t0 :: captured ∧
    List.Chain' (fun a b => a.timestamp ≤ b.timestamp)
      (runSession tabId (some tab) t0 captured) := by
  have hstartst : startRecording tabId (some tab) t0
      { isRecording := false, recordingTabId := none, events := [] } =
      { isRecording := true, recordingTabId := some tabId,
        events := [navigationEvent tab.url tab.title t0] } := by
    unfold startRecording
    simp [hurl]
  have hrun : runSession tabId (some tab) t0 captured =
      navigationEvent tab.url tab.title t0 :: captured := by
    unfold runSession
    rw [hstartst, foldl_addEvent captured _ rfl]
    simp [stopRecording]
  refine ⟨hrun, ?_⟩
  rw [hrun, List.chain'_cons']
  refine ⟨?_, hmono⟩
  intro b hb
  exact hstart b (List.mem_of_mem_head? hb)

/-- Witness for C8: a concrete session with a click then a navigation. -/
theorem trace_session_order_witness :
    runSession 1 (some { url := "https://example.com", title := "Example" }) 5
        [{ type := "click", timestamp := 6, url := "https://example.com" },
         { type := "navigation", timestamp := 7, url := "https://example.com/a" }] =
      navigationEvent "https://example.com" "Example" 5 ::
        [{ type := "click", timestamp := 6, url := "https://example.com" },
         { type := "navigation", timestamp := 7, url := "https://example.com/a" }] :=
  (trace_session_order 1 { url := "https://example.com", title := "Example" } 5
    [{ type := "click", timestamp := 6, url := "https://example.com" },
     { type := "navigation", timestamp := 7, url := "https://example.com/a" }]
    (by decide) (by simp [List.chain'_cons]) (by decide)).1

/-- A non-empty keystroke burst leaves the debounce state remembering the
element and the last value. -/
theorem foldl_onInput (el : InputElem) :
    ∀ (vs : List String) (st : InputDebounce) (v : String),
      (v :: vs).foldl (fun st v => onInput st el v) st =
        { lastElem := some el, lastValue := vs.getLastD v } := by
  intro vs
  induction vs with
  | nil => intro st v; simp [onInput, List.getLastD]
  | cons w ws ih =>
    intro st v
    rw [show (v :: w :: ws).foldl (fun st v => onInput st el v) st =
          (w :: ws).foldl (fun st v => onInput st el v) (onInput st el v) from rfl,
        ih (onInput st el v) w, List.getLastD_cons]

/-- C9: masking of password input is value-independent: two keystroke
bursts on the same password element emit the same debounced fill event,
whose value is ******** — the recorded value never depends on what was
typed. -/
theorem password_mask_noninterference (now : Nat) (url : String)
    (el : InputElem) (hpw : el.inputType = "password")
    (vs1 vs2 : List String) (h1 : vs1 ≠ []) (h2 : vs2 ≠ []) :
    debouncedFill now url el vs1 = debouncedFill now url el vs2 ∧
    debouncedFill now url el vs1 =
      some { type := "fill", timestamp := now, url := url, ref := el.ref,
             xpath := some el.xpath, cssSelector := some el.cssSelector,
             value := some "********", elementRole := el.role,
             elementName := el.name, elementTag := el.tag } := by
  have key : ∀ vs : List String, vs ≠ [] →
      debouncedFill now url el vs =
        some { type := "fill", timestamp := now, url := url, ref := el.ref,
               xpath := some el.xpath, cssSelector := some el.cssSelector,
               value := some "********", elementRole := el.role,
               elementName := el.name, elementTag := el.tag } := by
    intro vs hvs
    rcases vs with _ | ⟨v, rest⟩
    · exact absurd rfl hvs
    · unfold debouncedFill
      rw [foldl_onInput el rest _ v]
      simp [onTimerFire, hpw]
  exact ⟨(key vs1 h1).trans (key vs2 h2).symm, key vs1 h1⟩

/-- Witness for C9: a three-keystroke burst and a one-keystroke burst on
a password field emit the same masked event. -/
theorem password_mask_noninterference_witness :
    debouncedFill 9 "https://x" { inputType := "password" } ["s", "se", "sec"] =
      debouncedFill 9 "https://x" { inputType := "password" } ["hunter2"] ∧
    debouncedFill 9 "https://x" { inputType := "password" } ["s", "se", "sec"] =
      some { type := "fill", timestamp := 9, url := "https://x", ref := none,
             xpath := some "", cssSelector := some "",
             value := some "********", elementRole := "",
             elementName := "", elementTag := "" } :=
  password_mask_noninterference 9 "https://x" { inputType := "password" } rfl
    ["s", "se", "sec"] ["hunter2"] (by decide) (by decide)

/-- C10: checkElement on an already-checked checkbox/radio (and
uncheckElement on an already-unchecked one) leaves the element untouched
and dispatches no change event, returning true for the
wasAlreadyChecked / wasAlreadyUnchecked report; the checked state is
written and exactly one change event dispatched only when the state
differs from the target; any other element kind is rejected by both. -/
theorem check_uncheck_frame (el : DomInput)
    (hkind : el.inputType = "checkbox" ∨ el.inputType = "radio") :
    (el.checked = true → checkScript el = .ok (el, [], true)) ∧
    (el.checked = false →
       checkScript el = .ok ({ el with checked := true }, ["change"], false)) ∧
    (el.checked = false → uncheckScript el = .ok (el, [], true)) ∧
    (el.checked = true →
       uncheckScript el = .ok ({ el with checked := false }, ["change"], false)) ∧
    (∀ el' : DomInput, el'.inputType ≠ "checkbox" → el'.inputType ≠ "radio" →
       checkScript el' = .error "Element is not a checkbox or radio" ∧
       uncheckScript el' = .error "Element is not a checkbox or radio") := by
  have hk : (el.inputType != "checkbox" && el.inputType != "radio") = false := by
    rcases hkind with h | h <;> simp [h]
  refine ⟨?_, ?_, ?_, ?_, ?_⟩
  · intro hc; simp [checkScript, hk, hc]
  · intro hc; simp [checkScript, hk, hc]
  · intro hc; simp [uncheckScript, hk, hc]
  · intro hc; simp [uncheckScript, hk, hc]
  · intro el' h1 h2
    have hk' : (el'.inputType != "checkbox" && el'.inputType != "radio") = true := by
      simp [h1, h2]
    exact ⟨by simp [checkScript, hk'], by simp [uncheckScript, hk']⟩

/-- Witness for C10: checking an already-checked checkbox is a no-op that
reports wasAlreadyChecked. -/
theorem check_uncheck_frame_witness :
    checkScript { inputType := "checkbox", checked := true } =
      .ok ({ inputType := "checkbox", checked := true }, [], true) :=
  (check_uncheck_frame { inputType := "checkbox", checked := true }
    (Or.inl rfl)).1 rfl

end BB
